import Mathlib

/-!
Shallow embedding of the SLALIB positional-astronomy routines of this
repository (slaDtf2d, slaCs2c, slaAv2m, slaS2tp, slaPlanet, slaNutc),
with the claims of the specification about them settled as theorems.

C `double`/`float` values are modelled as real numbers (`ℝ`); exact
integer/rational code (slaDtf2d) is modelled computably over `ℤ`/`ℚ`.
Status codes keep the integer values the C code returns.  The Keplerian
elements-to-state solver slaPlanel is an external collaborator (its
source is not part of this library), so the slaPlanet embedding is
parametric over it.
-/

open Real

namespace Slalib

/-! ### slaDtf2d (dtf2d.c) — hours, minutes, seconds to days

The C routine presets `jstat = 0`, then validates `sec`, then `imin`,
then `ihour`, each check overwriting the previous status, and computes
`days` unconditionally. -/

/-- Status after the `sec` check: `jstat = 3` when `sec < 0 ∨ sec ≥ 60`. -/
def dtf2dStatusAfterSec (sec : ℚ) : ℤ :=
  if sec < 0 ∨ 60 ≤ sec then 3 else 0

/-- Status after the `imin` check overwrites the `sec` check. -/
def dtf2dStatusAfterMin (imin : ℤ) (sec : ℚ) : ℤ :=
  if imin < 0 ∨ 59 < imin then 2 else dtf2dStatusAfterSec sec

/-- Status after the `ihour` check overwrites the earlier checks. -/
def dtf2dStatusAfterHour (ihour imin : ℤ) (sec : ℚ) : ℤ :=
  if ihour < 0 ∨ 23 < ihour then 1 else dtf2dStatusAfterMin imin sec

/-- The slaDtf2d routine: returns `(days, jstat)`;
`days = (60·(60·ihour + imin) + sec) / 86400` irrespective of validation. -/
def slaDtf2d (ihour imin : ℤ) (sec : ℚ) : ℚ × ℤ :=
  ((60 * (60 * (ihour : ℚ) + (imin : ℚ)) + sec) / 86400,
   dtf2dStatusAfterHour ihour imin sec)

/-! ### slaCs2c (cs2c.c) — spherical coordinates to direction cosines -/

/-- The slaCs2c routine: unit vector from spherical coordinates `a` (longitude)
and `b` (latitude), as computed by cs2c.c. -/
noncomputable def slaCs2c (a b : ℝ) : ℝ × ℝ × ℝ :=
  (Real.cos a * Real.cos b, Real.sin a * Real.cos b, Real.sin b)

/-! ### slaS2tp (s2tp.cpp) — gnomonic (tangent-plane) projection

The C routine computes `denom = sin dec · sin decz + cos dec · cos decz ·
cos(ra - raz)`, classifies it against `TINY = 1e-6` into a status and a
possibly clamped denominator, then divides by the clamped denominator. -/

/-- Threshold `TINY` of s2tp.cpp. -/
def s2tpTiny : ℝ := 1e-6

/-- The raw denominator `sdec*sdecz + cdec*cdecz*cradif` of slaS2tp. -/
noncomputable def s2tpDenom (ra dec raz decz : ℝ) : ℝ :=
  Real.sin dec * Real.sin decz +
    Real.cos dec * Real.cos decz * Real.cos (ra - raz)

/-- The status branch of slaS2tp: `0` if `denom > TINY`, else `1` if
`denom ≥ 0`, else `2` if `denom > -TINY`, else `3`. -/
noncomputable def s2tpStatus (d : ℝ) : ℤ :=
  if d > s2tpTiny then 0
  else if d ≥ 0 then 1
  else if d > -s2tpTiny then 2
  else 3

/-- The denominator actually used in the divisions of slaS2tp: clamped to
`TINY` in the `j = 1` branch and to `-TINY` in the `j = 2` branch. -/
noncomputable def s2tpUsedDenom (d : ℝ) : ℝ :=
  if d > s2tpTiny then d
  else if d ≥ 0 then s2tpTiny
  else if d > -s2tpTiny then -s2tpTiny
  else d

/-- The slaS2tp routine: returns `(xi, eta, j)` as computed by s2tp.cpp. -/
noncomputable def slaS2tp (ra dec raz decz : ℝ) : ℝ × ℝ × ℤ :=
  let d := s2tpDenom ra dec raz decz
  let dd := s2tpUsedDenom d
  (Real.cos dec * Real.sin (ra - raz) / dd,
   (Real.sin dec * Real.cos decz -
      Real.cos dec * Real.sin decz * Real.cos (ra - raz)) / dd,
   s2tpStatus d)

/-! ### slaAv2m (av2m.cpp) — axial vector to rotation matrix -/

/-- Rotation matrix assembled entry by entry exactly as in av2m.cpp,
from the (possibly normalised) axis components `x, y, z`, `s = sin phi`,
`c = cos phi` and `w = 1 - c`. -/
def rodriguesMat (x y z s c w : ℝ) : Matrix (Fin 3) (Fin 3) ℝ :=
  !![x * x * w + c, x * y * w + z * s, x * z * w - y * s;
     x * y * w - z * s, y * y * w + c, y * z * w + x * s;
     x * z * w + y * s, y * z * w - x * s, z * z * w + c]

/-- The slaAv2m routine: rotation matrix from an axial vector, as computed by
av2m.cpp (Rodrigues formula; the normalisation is skipped when the
magnitude `phi` is zero). -/
noncomputable def slaAv2m (v : ℝ × ℝ × ℝ) : Matrix (Fin 3) (Fin 3) ℝ :=
  let phi := Real.sqrt (v.1 * v.1 + v.2.1 * v.2.1 + v.2.2 * v.2.2)
  let s := Real.sin phi
  let c := Real.cos phi
  let w := 1 - c
  let x := if phi ≠ 0 then v.1 / phi else v.1
  let y := if phi ≠ 0 then v.2.1 / phi else v.2.1
  let z := if phi ≠ 0 then v.2.2 / phi else v.2.2
  rodriguesMat x y z s c w

end Slalib

namespace Slalib

/-! ### slaPlanet (planet.c) — approximate heliocentric planetary ephemeris

Constants `GCON`, `CD2S`, `SPC`, `SE`, `CE` and all coefficient tables are
taken verbatim from planet.c.  The macros `dmod`, `D2PI`, `DAS2R`, `DD2R`
come from the header slamac.h, which is not among the available sources;
they are modelled from the specification. -/

/-- Modelled from the spec: the `dmod` macro of the missing header
slamac.h, a floor-based modulo that keeps results in `[0, b)` and handles
negative operands correctly (arithmetic remainder is insufficient). -/
noncomputable def dmod (a b : ℝ) : ℝ := a - b * (⌊a / b⌋ : ℝ)

/-- Modelled from the spec: the `D2PI` constant of the missing header
slamac.h, a full turn in radians. -/
noncomputable def D2PI : ℝ := 2 * Real.pi

/-- Modelled from the spec: the `DAS2R` constant of the missing header
slamac.h, arcseconds to radians. -/
noncomputable def DAS2R : ℝ := Real.pi / 648000

/-- Modelled from the spec: the `DD2R` constant of the missing header
slamac.h, degrees to radians. -/
noncomputable def DD2R : ℝ := Real.pi / 180

/-- Gaussian gravitational constant (planet.c line 131). -/
def GCON : ℝ := 0.01720209895

/-- Seconds per Julian century (planet.c line 137). -/
def SPC : ℝ := 36525.0 * 86400.0

/-- Sine of the J2000 mean obliquity (planet.c line 140). -/
def SE : ℝ := 0.3977771559319137

/-- Cosine of the J2000 mean obliquity (planet.c line 141). -/
def CE : ℝ := 0.9174820620691818

/-- Row-and-column access into a coefficient table, with `0` default. -/
def tget (tbl : List (List ℝ)) (i j : ℕ) : ℝ := (tbl.getD i []).getD j 0

/-- Element access into a coefficient list, with `0` default. -/
def lget (l : List ℝ) (i : ℕ) : ℝ := l.getD i 0

def amas : List ℝ := [6023600.0, 408523.5, 328900.5, 3098710.0, 1047.355, 3498.5, 22869.0, 19314.0]

def aTbl : List (List ℝ) := [
  [0.3870983098, 0.0, 0.0],
  [0.7233298200, 0.0, 0.0],
  [1.0000010178, 0.0, 0.0],
  [1.5236793419, 3e-10, 0.0],
  [5.2026032092, 19132e-10, -39e-10],
  [9.5549091915, -0.0000213896, 444e-10],
  [19.2184460618, -3716e-10, 979e-10],
  [30.1103868694, -16635e-10, 686e-10]]

def dlmTbl : List (List ℝ) := [
  [252.25090552, 5381016286.88982, -1.92789],
  [181.97980085, 2106641364.33548, 0.59381],
  [100.46645683, 1295977422.83429, -2.04411],
  [355.43299958, 689050774.93988, 0.94264],
  [34.35151874, 109256603.77991, -30.60378],
  [50.07744430, 43996098.55732, 75.61614],
  [314.05500511, 15424811.93933, -1.75083],
  [304.34866548, 7865503.20744, 0.21103]]

def eTbl : List (List ℝ) := [
  [0.2056317526, 0.0002040653, -28349e-10],
  [0.0067719164, -0.0004776521, 98127e-10],
  [0.0167086342, -0.0004203654, -0.0000126734],
  [0.0934006477, 0.0009048438, -80641e-10],
  [0.0484979255, 0.0016322542, -0.0000471366],
  [0.0555481426, -0.0034664062, -0.0000643639],
  [0.0463812221, -0.0002729293, 0.0000078913],
  [0.0094557470, 0.0000603263, 0.0]]

def piTbl : List (List ℝ) := [
  [77.45611904, 5719.11590, -4.83016],
  [131.56370300, 175.48640, -498.48184],
  [102.93734808, 11612.35290, 53.27577],
  [336.06023395, 15980.45908, -62.32800],
  [14.33120687, 7758.75163, 259.95938],
  [93.05723748, 20395.49439, 190.25952],
  [173.00529106, 3215.56238, -34.09288],
  [48.12027554, 1050.71912, 27.39717]]

def dincTbl : List (List ℝ) := [
  [7.00498625, -214.25629, 0.28977],
  [3.39466189, -30.84437, -11.67836],
  [0.0, 469.97289, -3.35053],
  [1.84972648, -293.31722, -8.11830],
  [1.30326698, -71.55890, 11.95297],
  [2.48887878, 91.85195, -17.66225],
  [0.77319689, -60.72723, 1.25759],
  [1.76995259, 8.12333, 0.08135]]

def omegaTbl : List (List ℝ) := [
  [48.33089304, -4515.21727, -31.79892],
  [76.67992019, -10008.48154, -51.32614],
  [174.87317577, -8679.27034, 15.34191],
  [49.55809321, -10620.90088, -230.57416],
  [100.46440702, 6362.03561, 326.52178],
  [113.66550252, -9240.19942, -66.23743],
  [74.00595701, 2669.15033, 145.93964],
  [131.78405702, -221.94322, -0.78728]]

def dkpTbl : List (List ℝ) := [
  [69613.0, 75645.0, 88306.0, 59899.0, 15746.0, 71087.0, 142173.0, 3086.0, 0.0],
  [21863.0, 32794.0, 26934.0, 10931.0, 26250.0, 43725.0, 53867.0, 28939.0, 0.0],
  [16002.0, 21863.0, 32004.0, 10931.0, 14529.0, 16368.0, 15318.0, 32794.0, 0.0],
  [6345.0, 7818.0, 15636.0, 7077.0, 8184.0, 14163.0, 1107.0, 4872.0, 0.0],
  [1760.0, 1454.0, 1167.0, 880.0, 287.0, 2640.0, 19.0, 2047.0, 1454.0],
  [574.0, 0.0, 880.0, 287.0, 19.0, 1760.0, 1167.0, 306.0, 574.0],
  [204.0, 0.0, 177.0, 1265.0, 4.0, 385.0, 200.0, 208.0, 204.0],
  [0.0, 102.0, 106.0, 4.0, 98.0, 1367.0, 487.0, 204.0, 0.0]]

def caTbl : List (List ℝ) := [
  [4.0, -13.0, 11.0, -9.0, -9.0, -3.0, -1.0, 4.0, 0.0],
  [-156.0, 59.0, -42.0, 6.0, 19.0, -20.0, -10.0, -12.0, 0.0],
  [64.0, -152.0, 62.0, -8.0, 32.0, -41.0, 19.0, -11.0, 0.0],
  [124.0, 621.0, -145.0, 208.0, 54.0, -57.0, 30.0, 15.0, 0.0],
  [-23437.0, -2634.0, 6601.0, 6259.0, -1507.0, -1821.0, 2620.0, -2115.0, -1489.0],
  [62911.0, -119919.0, 79336.0, 17814.0, -24241.0, 12068.0, 8306.0, -4893.0, 8902.0],
  [389061.0, -262125.0, -44088.0, 8387.0, -22976.0, -2093.0, -615.0, -9720.0, 6633.0],
  [-412235.0, -157046.0, -31430.0, 37817.0, -9740.0, -13.0, -7449.0, 9644.0, 0.0]]

def saTbl : List (List ℝ) := [
  [-29.0, -1.0, 9.0, 6.0, -6.0, 5.0, 4.0, 0.0, 0.0],
  [-48.0, -125.0, -26.0, -37.0, 18.0, -13.0, -20.0, -2.0, 0.0],
  [-150.0, -46.0, 68.0, 54.0, 14.0, 24.0, -28.0, 22.0, 0.0],
  [-621.0, 532.0, -694.0, -20.0, 192.0, -94.0, 71.0, -73.0, 0.0],
  [-14614.0, -19828.0, -5869.0, 1881.0, -4372.0, -2255.0, 782.0, 930.0, 913.0],
  [139737.0, 0.0, 24667.0, 51123.0, -5102.0, 7429.0, -4095.0, -1976.0, -9566.0],
  [-138081.0, 0.0, 37205.0, -49039.0, -41901.0, -33872.0, -27037.0, -12474.0, 18797.0],
  [0.0, 28492.0, 133236.0, 69654.0, 52322.0, -49577.0, -26430.0, -3593.0, 0.0]]

def dkqTbl : List (List ℝ) := [
  [3086.0, 15746.0, 69613.0, 59899.0, 75645.0, 88306.0, 12661.0, 2658.0, 0.0, 0.0],
  [21863.0, 32794.0, 10931.0, 73.0, 4387.0, 26934.0, 1473.0, 2157.0, 0.0, 0.0],
  [10.0, 16002.0, 21863.0, 10931.0, 1473.0, 32004.0, 4387.0, 73.0, 0.0, 0.0],
  [10.0, 6345.0, 7818.0, 1107.0, 15636.0, 7077.0, 8184.0, 532.0, 10.0, 0.0],
  [19.0, 1760.0, 1454.0, 287.0, 1167.0, 880.0, 574.0, 2640.0, 19.0, 1454.0],
  [19.0, 574.0, 287.0, 306.0, 1760.0, 12.0, 31.0, 38.0, 19.0, 574.0],
  [4.0, 204.0, 177.0, 8.0, 31.0, 200.0, 1265.0, 102.0, 4.0, 204.0],
  [4.0, 102.0, 106.0, 8.0, 98.0, 1367.0, 487.0, 204.0, 4.0, 102.0]]

def cloTbl : List (List ℝ) := [
  [21.0, -95.0, -157.0, 41.0, -5.0, 42.0, 23.0, 30.0, 0.0, 0.0],
  [-160.0, -313.0, -235.0, 60.0, -74.0, -76.0, -27.0, 34.0, 0.0, 0.0],
  [-325.0, -322.0, -79.0, 232.0, -52.0, 97.0, 55.0, -41.0, 0.0, 0.0],
  [2268.0, -979.0, 802.0, 602.0, -668.0, -33.0, 345.0, 201.0, -55.0, 0.0],
  [7610.0, -4997.0, -7689.0, -5841.0, -2617.0, 1115.0, -748.0, -607.0, 6074.0, 354.0],
  [-18549.0, 30125.0, 20012.0, -730.0, 824.0, 23.0, 1289.0, -352.0, -14767.0, -2062.0],
  [-135245.0, -14594.0, 4197.0, -4030.0, -5630.0, -2898.0, 2540.0, -306.0, 2939.0, 1986.0],
  [89948.0, 2103.0, 8963.0, 2695.0, 3682.0, 1648.0, 866.0, -154.0, -1963.0, -283.0]]

def sloTbl : List (List ℝ) := [
  [-342.0, 136.0, -23.0, 62.0, 66.0, -52.0, -33.0, 17.0, 0.0, 0.0],
  [524.0, -149.0, -35.0, 117.0, 151.0, 122.0, -71.0, -62.0, 0.0, 0.0],
  [-105.0, -137.0, 258.0, 35.0, -116.0, -88.0, -112.0, -80.0, 0.0, 0.0],
  [854.0, -205.0, -936.0, -240.0, 140.0, -341.0, -97.0, -232.0, 536.0, 0.0],
  [-56980.0, 8016.0, 1012.0, 1448.0, -3024.0, -3710.0, 318.0, 503.0, 3767.0, 577.0],
  [138606.0, -13478.0, -4964.0, 1441.0, -1319.0, -1482.0, 427.0, 1236.0, -9167.0, -1918.0],
  [71234.0, -41116.0, 5334.0, -4935.0, -1848.0, 66.0, 434.0, -1748.0, 3780.0, -701.0],
  [-47645.0, 11647.0, 2166.0, 3194.0, 679.0, 0.0, -244.0, -419.0, -2531.0, 48.0]]

def plutoTerms : List ((ℤ × ℤ × ℤ) × (ℝ × ℝ) × (ℝ × ℝ) × (ℝ × ℝ)) := [
  ((0, 0, 1), (-19798886e-6, 19848454e-6), (-5453098e-6, -14974876e-6), (66867334e-7, 68955876e-7)),
  ((0, 0, 2), (897499e-6, -4955707e-6), (3527363e-6, 1672673e-6), (-11826086e-7, -333765e-7)),
  ((0, 0, 3), (610820e-6, 1210521e-6), (-1050939e-6, 327763e-6), (1593657e-7, -1439953e-7)),
  ((0, 0, 4), (-341639e-6, -189719e-6), (178691e-6, -291925e-6), (-18948e-7, 482443e-7)),
  ((0, 0, 5), (129027e-6, -34863e-6), (18763e-6, 100448e-6), (-66634e-7, -85576e-7)),
  ((0, 0, 6), (-38215e-6, 31061e-6), (-30594e-6, -25838e-6), (30841e-7, -5765e-7)),
  ((0, 1, -1), (20349e-6, -9886e-6), (4965e-6, 11263e-6), (-6140e-7, 22254e-7)),
  ((0, 1, 0), (-4045e-6, -4904e-6), (310e-6, -132e-6), (4434e-7, 4443e-7)),
  ((0, 1, 1), (-5885e-6, -3238e-6), (2036e-6, -947e-6), (-1518e-7, 641e-7)),
  ((0, 1, 2), (-3812e-6, 3011e-6), (-2e-6, -674e-6), (-5e-7, 792e-7)),
  ((0, 1, 3), (-601e-6, 3468e-6), (-329e-6, -563e-6), (518e-7, 518e-7)),
  ((0, 2, -2), (1237e-6, 463e-6), (-64e-6, 39e-6), (-13e-7, -221e-7)),
  ((0, 2, -1), (1086e-6, -911e-6), (-94e-6, 210e-6), (837e-7, -494e-7)),
  ((0, 2, 0), (595e-6, -1229e-6), (-8e-6, -160e-6), (-281e-7, 616e-7)),
  ((1, -1, 0), (2484e-6, -485e-6), (-177e-6, 259e-6), (260e-7, -395e-7)),
  ((1, -1, 1), (839e-6, -1414e-6), (17e-6, 234e-6), (-191e-7, -396e-7)),
  ((1, 0, -3), (-964e-6, 1059e-6), (582e-6, -285e-6), (-3218e-7, 370e-7)),
  ((1, 0, -2), (-2303e-6, -1038e-6), (-298e-6, 692e-6), (8019e-7, -7869e-7)),
  ((1, 0, -1), (7049e-6, 747e-6), (157e-6, 201e-6), (105e-7, 45637e-7)),
  ((1, 0, 0), (1179e-6, -358e-6), (304e-6, 825e-6), (8623e-7, 8444e-7)),
  ((1, 0, 1), (393e-6, -63e-6), (-124e-6, -29e-6), (-896e-7, -801e-7)),
  ((1, 0, 2), (111e-6, -268e-6), (15e-6, 8e-6), (208e-7, -122e-7)),
  ((1, 0, 3), (-52e-6, -154e-6), (7e-6, 15e-6), (-133e-7, 65e-7)),
  ((1, 0, 4), (-78e-6, -30e-6), (2e-6, 2e-6), (-16e-7, 1e-7)),
  ((1, 1, -3), (-34e-6, -26e-6), (4e-6, 2e-6), (-22e-7, 7e-7)),
  ((1, 1, -2), (-43e-6, 1e-6), (3e-6, 0e-6), (-8e-7, 16e-7)),
  ((1, 1, -1), (-15e-6, 21e-6), (1e-6, -1e-6), (2e-7, 9e-7)),
  ((1, 1, 0), (-1e-6, 15e-6), (0e-6, -2e-6), (12e-7, 5e-7)),
  ((1, 1, 1), (4e-6, 7e-6), (1e-6, 0e-6), (1e-7, -3e-7)),
  ((1, 1, 3), (1e-6, 5e-6), (1e-6, -1e-6), (1e-7, 0e-7)),
  ((2, 0, -6), (8e-6, 3e-6), (-2e-6, -3e-6), (9e-7, 5e-7)),
  ((2, 0, -5), (-3e-6, 6e-6), (1e-6, 2e-6), (2e-7, -1e-7)),
  ((2, 0, -4), (6e-6, -13e-6), (-8e-6, 2e-6), (14e-7, 10e-7)),
  ((2, 0, -3), (10e-6, 22e-6), (10e-6, -7e-6), (-65e-7, 12e-7)),
  ((2, 0, -2), (-57e-6, -32e-6), (0e-6, 21e-6), (126e-7, -233e-7)),
  ((2, 0, -1), (157e-6, -46e-6), (8e-6, 5e-6), (270e-7, 1068e-7)),
  ((2, 0, 0), (12e-6, -18e-6), (13e-6, 16e-6), (254e-7, 155e-7)),
  ((2, 0, 1), (-4e-6, 8e-6), (-2e-6, -3e-6), (-26e-7, -2e-7)),
  ((2, 0, 2), (-5e-6, 0e-6), (0e-6, 0e-6), (7e-7, 0e-7)),
  ((2, 0, 3), (3e-6, 4e-6), (0e-6, 1e-6), (-11e-7, 4e-7)),
  ((3, 0, -2), (-1e-6, -1e-6), (0e-6, 1e-6), (4e-7, -14e-7)),
  ((3, 0, -1), (6e-6, -3e-6), (0e-6, 0e-6), (18e-7, 35e-7)),
  ((3, 0, 0), (-1e-6, -2e-6), (0e-6, 1e-6), (13e-7, 3e-7))]

/-- Julian millennia since J2000 for the Mercury-to-Neptune branch. -/
noncomputable def planetT (date : ℝ) : ℝ := (date - 51544.5) / 365250.0

/-- Pre-collaborator status of the Mercury-to-Neptune branch:
`0` when `|t| ≤ 1`, else the date warning `1`. -/
noncomputable def planetJstat18 (t : ℝ) : ℤ := if |t| ≤ 1.0 then 0 else 1

/-- Secular rate argument `dmu = 0.35953620 * t` of planet.c. -/
def planetDmu (t : ℝ) : ℝ := 0.35953620 * t

/-- Semi-major axis with its trigonometric corrections (planet.c lines
550, 562-573): quadratic mean element, eight plain periodic terms and a
ninth term scaled by `t`. -/
noncomputable def daFinal (ip : ℕ) (t : ℝ) : ℝ :=
  ((List.range 8).foldl (fun acc j =>
      acc + (tget caTbl ip j * Real.cos (tget dkpTbl ip j * planetDmu t)
           + tget saTbl ip j * Real.sin (tget dkpTbl ip j * planetDmu t)) * 1e-7)
    (tget aTbl ip 0 + (tget aTbl ip 1 + tget aTbl ip 2 * t) * t))
  + t * (tget caTbl ip 8 * Real.cos (tget dkpTbl ip 8 * planetDmu t)
       + tget saTbl ip 8 * Real.sin (tget dkpTbl ip 8 * planetDmu t)) * 1e-7

/-- Mean longitude before the final reduction (planet.c lines 551,
562-578): quadratic mean element in arcseconds scaled to radians, eight
plain periodic terms and two terms scaled by `t`. -/
noncomputable def dlUnreduced (ip : ℕ) (t : ℝ) : ℝ :=
  ((List.range 8).foldl (fun acc j =>
      acc + (tget cloTbl ip j * Real.cos (tget dkqTbl ip j * planetDmu t)
           + tget sloTbl ip j * Real.sin (tget dkqTbl ip j * planetDmu t)) * 1e-7)
    ((3600.0 * tget dlmTbl ip 0 + (tget dlmTbl ip 1 + tget dlmTbl ip 2 * t) * t)
      * DAS2R))
  + ([8, 9].foldl (fun acc j =>
      acc + t * (tget cloTbl ip j * Real.cos (tget dkqTbl ip j * planetDmu t)
               + tget sloTbl ip j * Real.sin (tget dkqTbl ip j * planetDmu t))
              * 1e-7) 0)

/-- Mean longitude reduced modulo a full turn (planet.c line 579),
as passed to the elements-to-state collaborator. -/
noncomputable def dlFinal (ip : ℕ) (t : ℝ) : ℝ := dmod (dlUnreduced ip t) D2PI

/-- Eccentricity (planet.c line 553). -/
noncomputable def deFinal (ip : ℕ) (t : ℝ) : ℝ :=
  tget eTbl ip 0 + (tget eTbl ip 1 + tget eTbl ip 2 * t) * t

/-- Longitude of perihelion, reduced modulo a full turn
(planet.c lines 554-555). -/
noncomputable def dpeFinal (ip : ℕ) (t : ℝ) : ℝ :=
  dmod ((3600.0 * tget piTbl ip 0 + (tget piTbl ip 1 + tget piTbl ip 2 * t) * t)
    * DAS2R) D2PI

/-- Inclination (planet.c lines 556-557). -/
noncomputable def diFinal (ip : ℕ) (t : ℝ) : ℝ :=
  (3600.0 * tget dincTbl ip 0 + (tget dincTbl ip 1 + tget dincTbl ip 2 * t) * t)
    * DAS2R

/-- Longitude of the ascending node, reduced modulo a full turn
(planet.c lines 558-559), as passed to the elements-to-state
collaborator. -/
noncomputable def domFinal (ip : ℕ) (t : ℝ) : ℝ :=
  dmod ((3600.0 * tget omegaTbl ip 0
    + (tget omegaTbl ip 1 + tget omegaTbl ip 2 * t) * t) * DAS2R) D2PI

/-- Mean daily motion from the perturbed semi-major axis by the third
Kepler law (planet.c line 582). -/
noncomputable def dmFinal (ip : ℕ) (t : ℝ) : ℝ :=
  GCON * Real.sqrt ((1.0 + 1.0 / lget amas ip)
    / (daFinal ip t * daFinal ip t * daFinal ip t))

/-- Signature of the external elements-to-state collaborator slaPlanel:
`date jform epoch orbinc anode perih aorq e aorl dm`, returning a
position-velocity vector and a convergence status. -/
def PlanelFn : Type :=
  ℝ → ℤ → ℝ → ℝ → ℝ → ℝ → ℝ → ℝ → ℝ → ℝ → (Fin 6 → ℝ) × ℤ

/-- Julian centuries since J2000 for the Pluto branch. -/
noncomputable def plutoT (date : ℝ) : ℝ := (date - 51544.5) / 36525.0

/-- Status of the Pluto branch as the code computes it (planet.c line
599): `0` when `t ∈ [-1.15, 1.0]`, else `-1`. -/
noncomputable def plutoJstat (t : ℝ) : ℤ :=
  if -1.15 ≤ t ∧ t ≤ 1.0 then 0 else -1

/-- Accumulation of the 43 periodic terms of the Pluto branch into the
longitude, latitude and radius-vector sums and their derivatives
(planet.c lines 601-637). -/
noncomputable def plutoAccum (t : ℝ) : (ℝ × ℝ × ℝ) × (ℝ × ℝ × ℝ) :=
  let dj := (34.35 + 3034.9057 * t) * DD2R
  let ds := (50.08 + 1222.1138 * t) * DD2R
  let dp := (238.96 + 144.9600 * t) * DD2R
  plutoTerms.foldl (fun acc term =>
    let al := (term.1.1 : ℝ) * dj + (term.1.2.1 : ℝ) * ds + (term.1.2.2 : ℝ) * dp
    let ald := ((term.1.1 : ℝ) * 3034.9057 + (term.1.2.1 : ℝ) * 1222.1138
              + (term.1.2.2 : ℝ) * 144.9600) * DD2R
    let sal := Real.sin al
    let cal := Real.cos al
    ((acc.1.1 + term.2.1.1 * sal + term.2.1.2 * cal,
      acc.1.2.1 + term.2.2.1.1 * sal + term.2.2.1.2 * cal,
      acc.1.2.2 + term.2.2.2.1 * sal + term.2.2.2.2 * cal),
     (acc.2.1 + (term.2.1.1 * cal - term.2.1.2 * sal) * ald,
      acc.2.2.1 + (term.2.2.1.1 * cal - term.2.2.1.2 * sal) * ald,
      acc.2.2.2 + (term.2.2.2.1 * cal - term.2.2.2.2 * sal) * ald)))
    ((0, 0, 0), (0, 0, 0))

/-- Position-velocity vector of the Pluto branch (planet.c lines
639-673): heliocentric ecliptic longitude, latitude, radius vector and
derivatives from the periodic series, converted to Cartesian form and
rotated to the J2000 equatorial frame with `SE`, `CE`. -/
noncomputable def plutoPv (date : ℝ) : Fin 6 → ℝ :=
  let t := plutoT date
  let w := plutoAccum t
  let dl := (238.956785 + 144.96 * t + w.1.1) * DD2R
  let dld := (144.96 + w.2.1) * DD2R / SPC
  let db := (-3.908202 + w.1.2.1) * DD2R
  let dbd := w.2.2.1 * DD2R / SPC
  let dr := 40.7247248 + w.1.2.2
  let drd := w.2.2.2 / SPC
  let sl := Real.sin dl
  let cl := Real.cos dl
  let sb := Real.sin db
  let cb := Real.cos db
  let slcb := sl * cb
  let clcb := cl * cb
  let x := dr * clcb
  let y := dr * slcb
  let z := dr * sb
  let xd := drd * clcb - dr * (cl * sb * dbd + slcb * dld)
  let yd := drd * slcb + dr * (-(sl * sb * dbd) + clcb * dld)
  let zd := drd * sb + dr * cb * dbd
  ![x, y * CE - z * SE, y * SE + z * CE,
    xd, yd * CE - zd * SE, yd * SE + zd * CE]

/-- The all-zero position-velocity vector returned for an invalid body. -/
def zeroPv : Fin 6 → ℝ := fun _ => 0

/-- The slaPlanet routine (planet.c), parametric over the external
slaPlanel collaborator: validates the body number, then either runs the
Mercury-to-Neptune mean-element algorithm (delegating to the
collaborator, whose negative status overrides the date warning) or the
independent Pluto periodic-series algorithm. -/
noncomputable def slaPlanet (planel : PlanelFn) (date : ℝ) (np : ℤ) :
    (Fin 6 → ℝ) × ℤ :=
  if np < 1 ∨ np > 9 then (zeroPv, -1)
  else if np ≠ 9 then
    let ip := (np - 1).toNat
    let t := planetT date
    let res := planel date 1 date (diFinal ip t) (domFinal ip t)
      (dpeFinal ip t) (daFinal ip t) (deFinal ip t) (dlFinal ip t)
      (dmFinal ip t)
    (res.1, if res.2 < 0 then -2 else planetJstat18 t)
  else
    (plutoPv date, plutoJstat (plutoT date))

/-- Trivial concrete collaborator used by witnesses: always returns the
zero state and convergence status `0`. -/
def planel0 : PlanelFn := fun _ _ _ _ _ _ _ _ _ _ => (zeroPv, 0)

end Slalib

namespace Slalib

/-! ### slaNutc (nutc.cpp) — nutation by the Shirai-Fukushima 2001 theory

The coefficient tables `naTbl` (fundamental-angle multipliers), `psiTbl`
(longitude series) and `epsTbl` (obliquity series) are taken verbatim
from nutc.cpp.  The accumulation loop of the C code runs `j` from
`nterms - 1` down to `0`, where `nterms = sizeof na / sizeof int / 9`;
it is embedded as a left fold over the reversed term list, carrying an
explicit iteration counter. -/

/-- Arc seconds in a full circle (nutc.cpp line 51). -/
def TURNAS : ℝ := 1296000.0

/-- Rounding toward zero, as the C `fmod` does. -/
noncomputable def rtrunc (x : ℝ) : ℝ :=
  if 0 ≤ x then (⌊x⌋ : ℝ) else (⌈x⌉ : ℝ)

/-- The C library function `fmod`: remainder with truncation toward
zero. -/
noncomputable def fmodC (x y : ℝ) : ℝ := x - y * rtrunc (x / y)

set_option maxHeartbeats 1000000 in
def naTbl : List (List ℤ) := [
  [0, 0, 0, 0, -1, 0, 0, 0, 0],
  [0, 0, 2, -2, 2, 0, 0, 0, 0],
  [0, 0, 2, 0, 2, 0, 0, 0, 0],
  [0, 0, 0, 0, -2, 0, 0, 0, 0],
  [0, 1, 0, 0, 0, 0, 0, 0, 0],
  [0, 1, 2, -2, 2, 0, 0, 0, 0],
  [1, 0, 0, 0, 0, 0, 0, 0, 0],
  [0, 0, 2, 0, 1, 0, 0, 0, 0],
  [1, 0, 2, 0, 2, 0, 0, 0, 0],
  [0, -1, 2, -2, 2, 0, 0, 0, 0],
  [0, 0, 2, -2, 1, 0, 0, 0, 0],
  [-1, 0, 2, 0, 2, 0, 0, 0, 0],
  [-1, 0, 0, 2, 0, 0, 0, 0, 0],
  [1, 0, 0, 0, 1, 0, 0, 0, 0],
  [1, 0, 0, 0, -1, 0, 0, 0, 0],
  [-1, 0, 2, 2, 2, 0, 0, 0, 0],
  [1, 0, 2, 0, 1, 0, 0, 0, 0],
  [-2, 0, 2, 0, 1, 0, 0, 0, 0],
  [0, 0, 0, 2, 0, 0, 0, 0, 0],
  [0, 0, 2, 2, 2, 0, 0, 0, 0],
  [2, 0, 0, -2, 0, 0, 0, 0, 0],
  [2, 0, 2, 0, 2, 0, 0, 0, 0],
  [1, 0, 2, -2, 2, 0, 0, 0, 0],
  [-1, 0, 2, 0, 1, 0, 0, 0, 0],
  [2, 0, 0, 0, 0, 0, 0, 0, 0],
  [0, 0, 2, 0, 0, 0, 0, 0, 0],
  [0, 1, 0, 0, 1, 0, 0, 0, 0],
  [-1, 0, 0, 2, 1, 0, 0, 0, 0],
  [0, 2, 2, -2, 2, 0, 0, 0, 0],
  [0, 0, 2, -2, 0, 0, 0, 0, 0],
  [-1, 0, 0, 2, -1, 0, 0, 0, 0],
  [0, 1, 0, 0, -1, 0, 0, 0, 0],
  [0, 2, 0, 0, 0, 0, 0, 0, 0],
  [-1, 0, 2, 2, 1, 0, 0, 0, 0],
  [1, 0, 2, 2, 2, 0, 0, 0, 0],
  [0, 1, 2, 0, 2, 0, 0, 0, 0],
  [-2, 0, 2, 0, 0, 0, 0, 0, 0],
  [0, 0, 2, 2, 1, 0, 0, 0, 0],
  [0, -1, 2, 0, 2, 0, 0, 0, 0],
  [0, 0, 0, 2, 1, 0, 0, 0, 0],
  [1, 0, 2, -2, 1, 0, 0, 0, 0],
  [2, 0, 0, -2, -1, 0, 0, 0, 0],
  [2, 0, 2, -2, 2, 0, 0, 0, 0],
  [2, 0, 2, 0, 1, 0, 0, 0, 0],
  [0, 0, 0, 2, -1, 0, 0, 0, 0],
  [0, -1, 2, -2, 1, 0, 0, 0, 0],
  [-1, -1, 0, 2, 0, 0, 0, 0, 0],
  [2, 0, 0, -2, 1, 0, 0, 0, 0],
  [1, 0, 0, 2, 0, 0, 0, 0, 0],
  [0, 1, 2, -2, 1, 0, 0, 0, 0],
  [1, -1, 0, 0, 0, 0, 0, 0, 0],
  [-2, 0, 2, 0, 2, 0, 0, 0, 0],
  [0, -1, 0, 2, 0, 0, 0, 0, 0],
  [3, 0, 2, 0, 2, 0, 0, 0, 0],
  [0, 0, 0, 1, 0, 0, 0, 0, 0],
  [1, -1, 2, 0, 2, 0, 0, 0, 0],
  [1, 0, 0, -1, 0, 0, 0, 0, 0],
  [-1, -1, 2, 2, 2, 0, 0, 0, 0],
  [-1, 0, 2, 0, 0, 0, 0, 0, 0],
  [2, 0, 0, 0, -1, 0, 0, 0, 0],
  [0, -1, 2, 2, 2, 0, 0, 0, 0],
  [1, 1, 2, 0, 2, 0, 0, 0, 0],
  [2, 0, 0, 0, 1, 0, 0, 0, 0],
  [1, 1, 0, 0, 0, 0, 0, 0, 0],
  [1, 0, -2, 2, -1, 0, 0, 0, 0],
  [1, 0, 2, 0, 0, 0, 0, 0, 0],
  [-1, 1, 0, 1, 0, 0, 0, 0, 0],
  [1, 0, 0, 0, 2, 0, 0, 0, 0],
  [-1, 0, 1, 0, 1, 0, 0, 0, 0],
  [0, 0, 2, 1, 2, 0, 0, 0, 0],
  [-1, 1, 0, 1, 1, 0, 0, 0, 0],
  [-1, 0, 2, 4, 2, 0, 0, 0, 0],
  [0, -2, 2, -2, 1, 0, 0, 0, 0],
  [1, 0, 2, 2, 1, 0, 0, 0, 0],
  [1, 0, 0, 0, -2, 0, 0, 0, 0],
  [-2, 0, 2, 2, 2, 0, 0, 0, 0],
  [1, 1, 2, -2, 2, 0, 0, 0, 0],
  [-2, 0, 2, 4, 2, 0, 0, 0, 0],
  [-1, 0, 4, 0, 2, 0, 0, 0, 0],
  [2, 0, 2, -2, 1, 0, 0, 0, 0],
  [1, 0, 0, -1, -1, 0, 0, 0, 0],
  [2, 0, 2, 2, 2, 0, 0, 0, 0],
  [1, 0, 0, 2, 1, 0, 0, 0, 0],
  [3, 0, 0, 0, 0, 0, 0, 0, 0],
  [0, 0, 2, -2, -1, 0, 0, 0, 0],
  [3, 0, 2, -2, 2, 0, 0, 0, 0],
  [0, 0, 4, -2, 2, 0, 0, 0, 0],
  [-1, 0, 0, 4, 0, 0, 0, 0, 0],
  [0, 1, 2, 0, 1, 0, 0, 0, 0],
  [0, 0, 2, -2, 3, 0, 0, 0, 0],
  [-2, 0, 0, 4, 0, 0, 0, 0, 0],
  [-1, -1, 0, 2, 1, 0, 0, 0, 0],
  [-2, 0, 2, 0, -1, 0, 0, 0, 0],
  [0, 0, 2, 0, -1, 0, 0, 0, 0],
  [0, -1, 2, 0, 1, 0, 0, 0, 0],
  [0, 1, 0, 0, 2, 0, 0, 0, 0],
  [0, 0, 2, -1, 2, 0, 0, 0, 0],
  [2, 1, 0, -2, 0, 0, 0, 0, 0],
  [0, 0, 2, 4, 2, 0, 0, 0, 0],
  [-1, -1, 0, 2, -1, 0, 0, 0, 0],
  [-1, 1, 0, 2, 0, 0, 0, 0, 0],
  [1, -1, 0, 0, 1, 0, 0, 0, 0],
  [0, -1, 2, -2, 0, 0, 0, 0, 0],
  [0, 1, 0, 0, -2, 0, 0, 0, 0],
  [1, -1, 2, 2, 2, 0, 0, 0, 0],
  [1, 0, 0, 2, -1, 0, 0, 0, 0],
  [-1, 1, 2, 2, 2, 0, 0, 0, 0],
  [3, 0, 2, 0, 1, 0, 0, 0, 0],
  [0, 1, 2, 2, 2, 0, 0, 0, 0],
  [1, 0, 2, -2, 0, 0, 0, 0, 0],
  [-1, 0, -2, 4, -1, 0, 0, 0, 0],
  [-1, -1, 2, 2, 1, 0, 0, 0, 0],
  [0, -1, 2, 2, 1, 0, 0, 0, 0],
  [2, -1, 2, 0, 2, 0, 0, 0, 0],
  [0, 0, 0, 2, 2, 0, 0, 0, 0],
  [1, -1, 2, 0, 1, 0, 0, 0, 0],
  [-1, 1, 2, 0, 2, 0, 0, 0, 0],
  [0, 1, 0, 2, 0, 0, 0, 0, 0],
  [0, 1, 2, -2, 0, 0, 0, 0, 0],
  [0, 3, 2, -2, 2, 0, 0, 0, 0],
  [0, 0, 0, 1, 1, 0, 0, 0, 0],
  [-1, 0, 2, 2, 0, 0, 0, 0, 0],
  [2, 1, 2, 0, 2, 0, 0, 0, 0],
  [1, 1, 0, 0, 1, 0, 0, 0, 0],
  [2, 0, 0, 2, 0, 0, 0, 0, 0],
  [1, 1, 2, 0, 1, 0, 0, 0, 0],
  [-1, 0, 0, 2, 2, 0, 0, 0, 0],
  [1, 0, -2, 2, 0, 0, 0, 0, 0],
  [0, -1, 0, 2, -1, 0, 0, 0, 0],
  [-1, 0, 1, 0, 2, 0, 0, 0, 0],
  [0, 1, 0, 1, 0, 0, 0, 0, 0],
  [1, 0, -2, 2, -2, 0, 0, 0, 0],
  [0, 0, 0, 1, -1, 0, 0, 0, 0],
  [1, -1, 0, 0, -1, 0, 0, 0, 0],
  [0, 0, 0, 4, 0, 0, 0, 0, 0],
  [1, -1, 0, 2, 0, 0, 0, 0, 0],
  [1, 0, 2, 1, 2, 0, 0, 0, 0],
  [1, 0, 2, -1, 2, 0, 0, 0, 0],
  [-1, 0, 0, 2, -2, 0, 0, 0, 0],
  [0, 0, 2, 1, 1, 0, 0, 0, 0],
  [-1, 0, 2, 0, -1, 0, 0, 0, 0],
  [-1, 0, 2, 4, 1, 0, 0, 0, 0],
  [0, 0, 2, 2, 0, 0, 0, 0, 0],
  [1, 1, 2, -2, 1, 0, 0, 0, 0],
  [0, 0, 1, 0, 1, 0, 0, 0, 0],
  [-1, 0, 2, -1, 1, 0, 0, 0, 0],
  [-2, 0, 2, 2, 1, 0, 0, 0, 0],
  [2, -1, 0, 0, 0, 0, 0, 0, 0],
  [4, 0, 2, 0, 2, 0, 0, 0, 0],
  [2, 1, 2, -2, 2, 0, 0, 0, 0],
  [0, 1, 2, 1, 2, 0, 0, 0, 0],
  [1, 0, 4, -2, 2, 0, 0, 0, 0],
  [1, 1, 0, 0, -1, 0, 0, 0, 0],
  [-2, 0, 2, 4, 1, 0, 0, 0, 0],
  [2, 0, 2, 0, 0, 0, 0, 0, 0],
  [-1, 0, 1, 0, 0, 0, 0, 0, 0],
  [1, 0, 0, 1, 0, 0, 0, 0, 0],
  [0, 1, 0, 2, 1, 0, 0, 0, 0],
  [-1, 0, 4, 0, 1, 0, 0, 0, 0],
  [-1, 0, 0, 4, 1, 0, 0, 0, 0],
  [2, 0, 2, 2, 1, 0, 0, 0, 0],
  [2, 1, 0, 0, 0, 0, 0, 0, 0],
  [0, 0, 5, -5, 5, -3, 0, 0, 0],
  [0, 0, 0, 0, 0, 0, 0, 2, 0],
  [0, 0, 1, -1, 1, 0, 0, -1, 0],
  [0, 0, -1, 1, -1, 1, 0, 0, 0],
  [0, 0, -1, 1, 0, 0, 2, 0, 0],
  [0, 0, 3, -3, 3, 0, 0, -1, 0],
  [0, 0, -8, 8, -7, 5, 0, 0, 0],
  [0, 0, -1, 1, -1, 0, 2, 0, 0],
  [0, 0, -2, 2, -2, 2, 0, 0, 0],
  [0, 0, -6, 6, -6, 4, 0, 0, 0],
  [0, 0, -2, 2, -2, 0, 8, -3, 0],
  [0, 0, 6, -6, 6, 0, -8, 3, 0],
  [0, 0, 4, -4, 4, -2, 0, 0, 0],
  [0, 0, -3, 3, -3, 2, 0, 0, 0],
  [0, 0, 4, -4, 3, 0, -8, 3, 0],
  [0, 0, -4, 4, -5, 0, 8, -3, 0],
  [0, 0, 0, 0, 0, 2, 0, 0, 0],
  [0, 0, -4, 4, -4, 3, 0, 0, 0],
  [0, 1, -1, 1, -1, 0, 0, 1, 0],
  [0, 0, 0, 0, 0, 0, 0, 1, 0],
  [0, 0, 1, -1, 1, 1, 0, 0, 0],
  [0, 0, 2, -2, 2, 0, -2, 0, 0],
  [0, -1, -7, 7, -7, 5, 0, 0, 0],
  [-2, 0, 2, 0, 2, 0, 0, -2, 0],
  [-2, 0, 2, 0, 1, 0, 0, -3, 0],
  [0, 0, 2, -2, 2, 0, 0, -2, 0],
  [0, 0, 1, -1, 1, 0, 0, 1, 0],
  [0, 0, 0, 0, 0, 0, 0, 0, 2],
  [0, 0, 0, 0, 0, 0, 0, 0, 1],
  [2, 0, -2, 0, -2, 0, 0, 3, 0],
  [0, 0, 1, -1, 1, 0, 0, -2, 0],
  [0, 0, -7, 7, -7, 5, 0, 0, 0]]

set_option maxHeartbeats 1000000 in
def psiTbl : List (List ℝ) := [
  [3341.5, 17206241.8, 3.1, 17409.5],
  [-1716.8, -1317185.3, 1.4, -156.8],
  [285.7, -227667.0, 0.3, -23.5],
  [-68.6, -207448.0, 0.0, -21.4],
  [950.3, 147607.9, -2.3, -355.0],
  [-66.7, -51689.1, 0.2, 122.6],
  [-108.6, 71117.6, 0.0, 7.0],
  [35.6, -38740.2, 0.1, -36.2],
  [85.4, -30127.6, 0.0, -3.1],
  [9.0, 21583.0, 0.1, -50.3],
  [22.1, 12822.8, 0.0, 13.3],
  [3.4, 12350.8, 0.0, 1.3],
  [-21.1, 15699.4, 0.0, 1.6],
  [4.2, 6313.8, 0.0, 6.2],
  [-22.8, 5796.9, 0.0, 6.1],
  [15.7, -5961.1, 0.0, -0.6],
  [13.1, -5159.1, 0.0, -4.6],
  [1.8, 4592.7, 0.0, 4.5],
  [-17.5, 6336.0, 0.0, 0.7],
  [16.3, -3851.1, 0.0, -0.4],
  [-2.8, 4771.7, 0.0, 0.5],
  [13.8, -3099.3, 0.0, -0.3],
  [0.2, 2860.3, 0.0, 0.3],
  [1.4, 2045.3, 0.0, 2.0],
  [-8.6, 2922.6, 0.0, 0.3],
  [-7.7, 2587.9, 0.0, 0.2],
  [8.8, -1408.1, 0.0, 3.7],
  [1.4, 1517.5, 0.0, 1.5],
  [-1.9, -1579.7, 0.0, 7.7],
  [1.3, -2178.6, 0.0, -0.2],
  [-4.8, 1286.8, 0.0, 1.3],
  [6.3, 1267.2, 0.0, -4.0],
  [-1.0, 1669.3, 0.0, -8.3],
  [2.4, -1020.0, 0.0, -0.9],
  [4.5, -766.9, 0.0, 0.0],
  [-1.1, 756.5, 0.0, -1.7],
  [-1.4, -1097.3, 0.0, -0.5],
  [2.6, -663.0, 0.0, -0.6],
  [0.8, -714.1, 0.0, 1.6],
  [0.4, -629.9, 0.0, -0.6],
  [0.3, 580.4, 0.0, 0.6],
  [-1.6, 577.3, 0.0, 0.5],
  [-0.9, 644.4, 0.0, 0.0],
  [2.2, -534.0, 0.0, -0.5],
  [-2.5, 493.3, 0.0, 0.5],
  [-0.1, -477.3, 0.0, -2.4],
  [-0.9, 735.0, 0.0, -1.7],
  [0.7, 406.2, 0.0, 0.4],
  [-2.8, 656.9, 0.0, 0.0],
  [0.6, 358.0, 0.0, 2.0],
  [-0.7, 472.5, 0.0, -1.1],
  [-0.1, -300.5, 0.0, 0.0],
  [-1.2, 435.1, 0.0, -1.0],
  [1.8, -289.4, 0.0, 0.0],
  [0.6, -422.6, 0.0, 0.0],
  [0.8, -287.6, 0.0, 0.6],
  [-38.6, -392.3, 0.0, 0.0],
  [0.7, -281.8, 0.0, 0.6],
  [0.6, -405.7, 0.0, 0.0],
  [-1.2, 229.0, 0.0, 0.2],
  [1.1, -264.3, 0.0, 0.5],
  [-0.7, 247.9, 0.0, -0.5],
  [-0.2, 218.0, 0.0, 0.2],
  [0.6, -339.0, 0.0, 0.8],
  [-0.7, 198.7, 0.0, 0.2],
  [-1.5, 334.0, 0.0, 0.0],
  [0.1, 334.0, 0.0, 0.0],
  [-0.1, -198.1, 0.0, 0.0],
  [-106.6, 0.0, 0.0, 0.0],
  [-0.5, 165.8, 0.0, 0.0],
  [0.0, 134.8, 0.0, 0.0],
  [0.9, -151.6, 0.0, 0.0],
  [0.0, -129.7, 0.0, 0.0],
  [0.8, -132.8, 0.0, -0.1],
  [0.5, -140.7, 0.0, 0.0],
  [-0.1, 138.4, 0.0, 0.0],
  [0.0, 129.0, 0.0, -0.3],
  [0.5, -121.2, 0.0, 0.0],
  [-0.3, 114.5, 0.0, 0.0],
  [-0.1, 101.8, 0.0, 0.0],
  [-3.6, -101.9, 0.0, 0.0],
  [0.8, -109.4, 0.0, 0.0],
  [0.2, -97.0, 0.0, 0.0],
  [-0.7, 157.3, 0.0, 0.0],
  [0.2, -83.3, 0.0, 0.0],
  [-0.3, 93.3, 0.0, 0.0],
  [-0.1, 92.1, 0.0, 0.0],
  [-0.5, 133.6, 0.0, 0.0],
  [-0.1, 81.5, 0.0, 0.0],
  [0.0, 123.9, 0.0, 0.0],
  [-0.3, 128.1, 0.0, 0.0],
  [0.1, 74.1, 0.0, -0.3],
  [-0.2, -70.3, 0.0, 0.0],
  [-0.4, 66.6, 0.0, 0.0],
  [0.1, -66.7, 0.0, 0.0],
  [-0.7, 69.3, 0.0, -0.3],
  [0.0, -70.4, 0.0, 0.0],
  [-0.1, 101.5, 0.0, 0.0],
  [0.5, -69.1, 0.0, 0.0],
  [-0.2, 58.5, 0.0, 0.2],
  [0.1, -94.9, 0.0, 0.2],
  [0.0, 52.9, 0.0, -0.2],
  [0.1, 86.7, 0.0, -0.2],
  [-0.1, -59.2, 0.0, 0.2],
  [0.3, -58.8, 0.0, 0.1],
  [-0.3, 49.0, 0.0, 0.0],
  [-0.2, 56.9, 0.0, -0.1],
  [0.3, -50.2, 0.0, 0.0],
  [-0.2, 53.4, 0.0, -0.1],
  [0.1, -76.5, 0.0, 0.0],
  [-0.2, 45.3, 0.0, 0.0],
  [0.1, -46.8, 0.0, 0.0],
  [0.2, -44.6, 0.0, 0.0],
  [0.2, -48.7, 0.0, 0.0],
  [0.1, -46.8, 0.0, 0.0],
  [0.1, -42.0, 0.0, 0.0],
  [0.0, 46.4, 0.0, -0.1],
  [0.2, -67.3, 0.0, 0.1],
  [0.0, -65.8, 0.0, 0.2],
  [-0.1, -43.9, 0.0, 0.3],
  [0.0, -38.9, 0.0, 0.0],
  [-0.3, 63.9, 0.0, 0.0],
  [-0.2, 41.2, 0.0, 0.0],
  [0.0, -36.1, 0.0, 0.2],
  [-0.3, 58.5, 0.0, 0.0],
  [-0.1, 36.1, 0.0, 0.0],
  [0.0, -39.7, 0.0, 0.0],
  [0.1, -57.7, 0.0, 0.0],
  [-0.2, 33.4, 0.0, 0.0],
  [36.4, 0.0, 0.0, 0.0],
  [-0.1, 55.7, 0.0, -0.1],
  [0.1, -35.4, 0.0, 0.0],
  [0.1, -31.0, 0.0, 0.0],
  [-0.1, 30.1, 0.0, 0.0],
  [-0.3, 49.2, 0.0, 0.0],
  [-0.2, 49.1, 0.0, 0.0],
  [-0.1, 33.6, 0.0, 0.0],
  [0.1, -33.5, 0.0, 0.0],
  [0.1, -31.0, 0.0, 0.0],
  [-0.1, 28.0, 0.0, 0.0],
  [0.1, -25.2, 0.0, 0.0],
  [0.1, -26.2, 0.0, 0.0],
  [-0.2, 41.5, 0.0, 0.0],
  [0.0, 24.5, 0.0, 0.1],
  [-16.2, 0.0, 0.0, 0.0],
  [0.0, -22.3, 0.0, 0.0],
  [0.0, 23.1, 0.0, 0.0],
  [-0.1, 37.5, 0.0, 0.0],
  [0.2, -25.7, 0.0, 0.0],
  [0.0, 25.2, 0.0, 0.0],
  [0.1, -24.5, 0.0, 0.0],
  [-0.1, 24.3, 0.0, 0.0],
  [0.1, -20.7, 0.0, 0.0],
  [0.1, -20.8, 0.0, 0.0],
  [-0.2, 33.4, 0.0, 0.0],
  [32.9, 0.0, 0.0, 0.0],
  [0.1, -32.6, 0.0, 0.0],
  [0.0, 19.9, 0.0, 0.0],
  [-0.1, 19.6, 0.0, 0.0],
  [0.0, -18.7, 0.0, 0.0],
  [0.1, -19.0, 0.0, 0.0],
  [0.1, -28.6, 0.0, 0.0],
  [4.0, 178.8, -11.8, 0.3],
  [39.8, -107.3, -5.6, -1.0],
  [9.9, 164.0, -4.1, 0.1],
  [-4.8, -135.3, -3.4, -0.1],
  [50.5, 75.0, 1.4, -1.2],
  [-1.1, -53.5, 1.3, 0.0],
  [-45.0, -2.4, -0.4, 6.6],
  [-11.5, -61.0, -0.9, 0.4],
  [4.4, -68.4, -3.4, 0.0],
  [7.7, -47.1, -4.7, -1.0],
  [-42.9, -12.6, -1.2, 4.2],
  [-42.8, 12.7, -1.2, -4.2],
  [-7.6, -44.1, 2.1, -0.5],
  [-64.1, 1.7, 0.2, 4.5],
  [36.4, -10.4, 1.0, 3.5],
  [35.6, 10.2, 1.0, -3.5],
  [-1.7, 39.5, 2.0, 0.0],
  [50.9, -8.2, -0.8, -5.0],
  [0.0, 52.3, 1.2, 0.0],
  [-42.9, -17.8, 0.4, 0.0],
  [2.6, 34.3, 0.8, 0.0],
  [-0.8, -48.6, 2.4, -0.1],
  [-4.9, 30.5, 3.7, 0.7],
  [0.0, -43.6, 2.1, 0.0],
  [0.0, -25.4, 1.2, 0.0],
  [2.0, 40.9, -2.0, 0.0],
  [-2.1, 26.1, 0.6, 0.0],
  [22.6, -3.2, -0.5, -0.5],
  [-7.6, 24.9, -0.4, -0.2],
  [-6.2, 34.9, 1.7, 0.3],
  [2.0, 17.4, -0.4, 0.1],
  [-3.9, 20.5, 2.4, 0.6]]

set_option maxHeartbeats 1000000 in
def epsTbl : List (List ℝ) := [
  [9205365.8, -1506.2, 885.7, -0.2],
  [573095.9, -570.2, -305.0, -0.3],
  [97845.5, 147.8, -48.8, -0.2],
  [-89753.6, 28.0, 46.9, 0.0],
  [7406.7, -327.1, -18.2, 0.8],
  [22442.3, -22.3, -67.6, 0.0],
  [-683.6, 46.8, 0.0, 0.0],
  [20070.7, 36.0, 1.6, 0.0],
  [12893.8, 39.5, -6.2, 0.0],
  [-9593.2, 14.4, 30.2, -0.1],
  [-6899.5, 4.8, -0.6, 0.0],
  [-5332.5, -0.1, 2.7, 0.0],
  [-125.2, 10.5, 0.0, 0.0],
  [-3323.4, -0.9, -0.3, 0.0],
  [3142.3, 8.9, 0.3, 0.0],
  [2552.5, 7.3, -1.2, 0.0],
  [2634.4, 8.8, 0.2, 0.0],
  [-2424.4, 1.6, -0.4, 0.0],
  [-123.3, 3.9, 0.0, 0.0],
  [1642.4, 7.3, -0.8, 0.0],
  [47.9, 3.2, 0.0, 0.0],
  [1321.2, 6.2, -0.6, 0.0],
  [-1234.1, -0.3, 0.6, 0.0],
  [-1076.5, -0.3, 0.0, 0.0],
  [-61.6, 1.8, 0.0, 0.0],
  [-55.4, 1.6, 0.0, 0.0],
  [856.9, -4.9, -2.1, 0.0],
  [-800.7, -0.1, 0.0, 0.0],
  [685.1, -0.6, -3.8, 0.0],
  [-16.9, -1.5, 0.0, 0.0],
  [695.7, 1.8, 0.0, 0.0],
  [642.2, -2.6, -1.6, 0.0],
  [13.3, 1.1, -0.1, 0.0],
  [521.9, 1.6, 0.0, 0.0],
  [325.8, 2.0, -0.1, 0.0],
  [-325.1, -0.5, 0.9, 0.0],
  [10.1, 0.3, 0.0, 0.0],
  [334.5, 1.6, 0.0, 0.0],
  [307.1, 0.4, -0.9, 0.0],
  [327.2, 0.5, 0.0, 0.0],
  [-304.6, -0.1, 0.0, 0.0],
  [304.0, 0.6, 0.0, 0.0],
  [-276.8, -0.5, 0.1, 0.0],
  [268.9, 1.3, 0.0, 0.0],
  [271.8, 1.1, 0.0, 0.0],
  [271.5, -0.4, -0.8, 0.0],
  [-5.2, 0.5, 0.0, 0.0],
  [-220.5, 0.1, 0.0, 0.0],
  [-20.1, 0.3, 0.0, 0.0],
  [-191.0, 0.1, 0.5, 0.0],
  [-4.1, 0.3, 0.0, 0.0],
  [130.6, -0.1, 0.0, 0.0],
  [3.0, 0.3, 0.0, 0.0],
  [122.9, 0.8, 0.0, 0.0],
  [3.7, -0.3, 0.0, 0.0],
  [123.1, 0.4, -0.3, 0.0],
  [-52.7, 15.3, 0.0, 0.0],
  [120.7, 0.3, -0.3, 0.0],
  [4.0, -0.3, 0.0, 0.0],
  [126.5, 0.5, 0.0, 0.0],
  [112.7, 0.5, -0.3, 0.0],
  [-106.1, -0.3, 0.3, 0.0],
  [-112.9, -0.2, 0.0, 0.0],
  [3.6, -0.2, 0.0, 0.0],
  [107.4, 0.3, 0.0, 0.0],
  [-10.9, 0.2, 0.0, 0.0],
  [-0.9, 0.0, 0.0, 0.0],
  [85.4, 0.0, 0.0, 0.0],
  [0.0, -88.8, 0.0, 0.0],
  [-71.0, -0.2, 0.0, 0.0],
  [-70.3, 0.0, 0.0, 0.0],
  [64.5, 0.4, 0.0, 0.0],
  [69.8, 0.0, 0.0, 0.0],
  [66.1, 0.4, 0.0, 0.0],
  [-61.0, -0.2, 0.0, 0.0],
  [-59.5, -0.1, 0.0, 0.0],
  [-55.6, 0.0, 0.2, 0.0],
  [51.7, 0.2, 0.0, 0.0],
  [-49.0, -0.1, 0.0, 0.0],
  [-52.7, -0.1, 0.0, 0.0],
  [-49.6, 1.4, 0.0, 0.0],
  [46.3, 0.4, 0.0, 0.0],
  [49.6, 0.1, 0.0, 0.0],
  [-5.1, 0.1, 0.0, 0.0],
  [-44.0, -0.1, 0.0, 0.0],
  [-39.9, -0.1, 0.0, 0.0],
  [-39.5, -0.1, 0.0, 0.0],
  [-3.9, 0.1, 0.0, 0.0],
  [-42.1, -0.1, 0.0, 0.0],
  [-17.2, 0.1, 0.0, 0.0],
  [-2.3, 0.1, 0.0, 0.0],
  [-39.2, 0.0, 0.0, 0.0],
  [-38.4, 0.1, 0.0, 0.0],
  [36.8, 0.2, 0.0, 0.0],
  [34.6, 0.1, 0.0, 0.0],
  [-32.7, 0.3, 0.0, 0.0],
  [30.4, 0.0, 0.0, 0.0],
  [0.4, 0.1, 0.0, 0.0],
  [29.3, 0.2, 0.0, 0.0],
  [31.6, 0.1, 0.0, 0.0],
  [0.8, -0.1, 0.0, 0.0],
  [-27.9, 0.0, 0.0, 0.0],
  [2.9, 0.0, 0.0, 0.0],
  [-25.3, 0.0, 0.0, 0.0],
  [25.0, 0.1, 0.0, 0.0],
  [27.5, 0.1, 0.0, 0.0],
  [-24.4, -0.1, 0.0, 0.0],
  [24.9, 0.2, 0.0, 0.0],
  [-22.8, -0.1, 0.0, 0.0],
  [0.9, -0.1, 0.0, 0.0],
  [24.4, 0.1, 0.0, 0.0],
  [23.9, 0.1, 0.0, 0.0],
  [22.5, 0.1, 0.0, 0.0],
  [20.8, 0.1, 0.0, 0.0],
  [20.1, 0.0, 0.0, 0.0],
  [21.5, 0.1, 0.0, 0.0],
  [-20.0, 0.0, 0.0, 0.0],
  [1.4, 0.0, 0.0, 0.0],
  [-0.2, -0.1, 0.0, 0.0],
  [19.0, 0.0, -0.1, 0.0],
  [20.5, 0.0, 0.0, 0.0],
  [-2.0, 0.0, 0.0, 0.0],
  [-17.6, -0.1, 0.0, 0.0],
  [19.0, 0.0, 0.0, 0.0],
  [-2.4, 0.0, 0.0, 0.0],
  [-18.4, -0.1, 0.0, 0.0],
  [17.1, 0.0, 0.0, 0.0],
  [0.4, 0.0, 0.0, 0.0],
  [18.4, 0.1, 0.0, 0.0],
  [0.0, 17.4, 0.0, 0.0],
  [-0.6, 0.0, 0.0, 0.0],
  [-15.4, 0.0, 0.0, 0.0],
  [-16.8, -0.1, 0.0, 0.0],
  [16.3, 0.0, 0.0, 0.0],
  [-2.0, 0.0, 0.0, 0.0],
  [-1.5, 0.0, 0.0, 0.0],
  [-14.3, -0.1, 0.0, 0.0],
  [14.4, 0.0, 0.0, 0.0],
  [-13.4, 0.0, 0.0, 0.0],
  [-14.3, -0.1, 0.0, 0.0],
  [-13.7, 0.0, 0.0, 0.0],
  [13.1, 0.1, 0.0, 0.0],
  [-1.7, 0.0, 0.0, 0.0],
  [-12.8, 0.0, 0.0, 0.0],
  [0.0, -14.4, 0.0, 0.0],
  [12.4, 0.0, 0.0, 0.0],
  [-12.0, 0.0, 0.0, 0.0],
  [-0.8, 0.0, 0.0, 0.0],
  [10.9, 0.1, 0.0, 0.0],
  [-10.8, 0.0, 0.0, 0.0],
  [10.5, 0.0, 0.0, 0.0],
  [-10.4, 0.0, 0.0, 0.0],
  [-11.2, 0.0, 0.0, 0.0],
  [10.5, 0.1, 0.0, 0.0],
  [-1.4, 0.0, 0.0, 0.0],
  [0.0, 0.1, 0.0, 0.0],
  [0.7, 0.0, 0.0, 0.0],
  [-10.3, 0.0, 0.0, 0.0],
  [-10.0, 0.0, 0.0, 0.0],
  [9.6, 0.0, 0.0, 0.0],
  [9.4, 0.1, 0.0, 0.0],
  [0.6, 0.0, 0.0, 0.0],
  [-87.7, 4.4, -0.4, -6.3],
  [46.3, 22.4, 0.5, -2.4],
  [15.6, -3.4, 0.1, 0.4],
  [5.2, 5.8, 0.2, -0.1],
  [-30.1, 26.9, 0.7, 0.0],
  [23.2, -0.5, 0.0, 0.6],
  [1.0, 23.2, 3.4, 0.0],
  [-12.2, -4.3, 0.0, 0.0],
  [-2.1, -3.7, -0.2, 0.1],
  [-18.6, -3.8, -0.4, 1.8],
  [5.5, -18.7, -1.8, -0.5],
  [-5.5, -18.7, 1.8, -0.5],
  [18.4, -3.6, 0.3, 0.9],
  [-0.6, 1.3, 0.0, 0.0],
  [-5.6, -19.5, 1.9, 0.0],
  [5.5, -19.1, -1.9, 0.0],
  [-17.3, -0.8, 0.0, 0.9],
  [-3.2, -8.3, -0.8, 0.3],
  [-0.1, 0.0, 0.0, 0.0],
  [-5.4, 7.8, -0.3, 0.0],
  [-14.8, 1.4, 0.0, 0.3],
  [-3.8, 0.4, 0.0, -0.2],
  [12.6, 3.2, 0.5, -1.5],
  [0.1, 0.0, 0.0, 0.0],
  [-13.6, 2.4, -0.1, 0.0],
  [0.9, 1.2, 0.0, 0.0],
  [-11.9, -0.5, 0.0, 0.3],
  [0.4, 12.0, 0.3, -0.2],
  [8.3, 6.1, -0.1, 0.1],
  [0.0, 0.0, 0.0, 0.0],
  [0.4, -10.8, 0.3, 0.0],
  [9.6, 2.2, 0.3, -1.2]]

/-- Mean anomaly of the Moon (nutc.cpp lines 668-673). -/
noncomputable def nutEl (t : ℝ) : ℝ :=
  134.96340251 * DD2R +
    fmodC (t * (1717915923.2178 + t * (31.8792 + t * (0.051635
      + t * (-0.00024470))))) TURNAS * DAS2R

/-- Mean anomaly of the Sun (nutc.cpp lines 675-680). -/
noncomputable def nutElp (t : ℝ) : ℝ :=
  357.52910918 * DD2R +
    fmodC (t * (129596581.0481 + t * (-0.5532 + t * (0.000136
      + t * (-0.00001149))))) TURNAS * DAS2R

/-- Mean argument of the latitude of the Moon (nutc.cpp lines 682-687). -/
noncomputable def nutF (t : ℝ) : ℝ :=
  93.27209062 * DD2R +
    fmodC (t * (1739527262.8478 + t * (-12.7512 + t * (-0.001037
      + t * 0.00000417)))) TURNAS * DAS2R

/-- Mean elongation of the Moon from the Sun (nutc.cpp lines 689-694). -/
noncomputable def nutD (t : ℝ) : ℝ :=
  297.85019547 * DD2R +
    fmodC (t * (1602961601.2090 + t * (-6.3706 + t * (0.006539
      + t * (-0.00003169))))) TURNAS * DAS2R

/-- Mean longitude of the ascending node of the Moon (nutc.cpp lines
696-701). -/
noncomputable def nutOm (t : ℝ) : ℝ :=
  125.04455501 * DD2R +
    fmodC (t * (-6962890.5431 + t * (7.4722 + t * (0.007702
      + t * (-0.00005939))))) TURNAS * DAS2R

/-- Mean longitude of Venus (nutc.cpp lines 703-705). -/
noncomputable def nutVe (t : ℝ) : ℝ :=
  181.97980085 * DD2R + fmodC (210664136.433548 * t) TURNAS * DAS2R

/-- Mean longitude of Mars (nutc.cpp lines 707-709). -/
noncomputable def nutMa (t : ℝ) : ℝ :=
  355.43299958 * DD2R + fmodC (68905077.493988 * t) TURNAS * DAS2R

/-- Mean longitude of Jupiter (nutc.cpp lines 711-713). -/
noncomputable def nutJu (t : ℝ) : ℝ :=
  34.35151874 * DD2R + fmodC (10925660.377991 * t) TURNAS * DAS2R

/-- Mean longitude of Saturn (nutc.cpp lines 715-717). -/
noncomputable def nutSa (t : ℝ) : ℝ :=
  50.07744430 * DD2R + fmodC (4399609.855732 * t) TURNAS * DAS2R

/-- The nine fundamental angles, in the column order of `naTbl`. -/
noncomputable def nutAngles (t : ℝ) : List ℝ :=
  [nutEl t, nutElp t, nutF t, nutD t, nutOm t,
   nutVe t, nutMa t, nutJu t, nutSa t]

/-- One nutation term: a 9-integer multiplier row paired with its four
longitude coefficients and four obliquity coefficients. -/
def nutTermList : List (List ℤ × List ℝ × List ℝ) :=
  naTbl.zip (psiTbl.zip epsTbl)

/-- Geodesic-nutation seed of the longitude accumulator
(nutc.cpp line 720). -/
noncomputable def nutSeed (t : ℝ) : ℝ :=
  -153.1 * Real.sin (nutElp t) - 1.9 * Real.sin (2.0 * nutElp t)

/-- Updated longitude and obliquity accumulators after one term of the
series (nutc.cpp lines 725-739): the argument `theta` is the multiplier
row contracted against the nine fundamental angles. -/
noncomputable def nutStepVals (t : ℝ) (pe : ℝ × ℝ)
    (term : List ℤ × List ℝ × List ℝ) : ℝ × ℝ :=
  let theta := (term.1.zip (nutAngles t)).foldl
    (fun s p => s + (p.1 : ℝ) * p.2) 0
  let c := Real.cos theta
  let s := Real.sin theta
  (pe.1 + (term.2.1.getD 0 0 + term.2.1.getD 2 0 * t) * c
        + (term.2.1.getD 1 0 + term.2.1.getD 3 0 * t) * s,
   pe.2 + (term.2.2.getD 0 0 + term.2.2.getD 2 0 * t) * c
        + (term.2.2.getD 1 0 + term.2.2.getD 3 0 * t) * s)

/-- One iteration of the series loop: bumps the iteration counter and
updates both accumulators. -/
noncomputable def nutStep (t : ℝ) (acc : ℕ × ℝ × ℝ)
    (term : List ℤ × List ℝ × List ℝ) : ℕ × ℝ × ℝ :=
  (acc.1 + 1, nutStepVals t acc.2 term)

/-- The series loop of slaNutc (nutc.cpp lines 724-740): left fold over
the terms in the order the C code visits them (index descending), with
an iteration counter. -/
noncomputable def nutLoop (t : ℝ) : ℕ × ℝ × ℝ :=
  nutTermList.reverse.foldl (nutStep t) (0, nutSeed t, 0)

/-- The slaNutc routine (nutc.cpp): returns `(dpsi, deps, eps0)`. -/
noncomputable def slaNutc (date : ℝ) : ℝ × ℝ × ℝ :=
  let t := (date - 51544.5) / 36525.0
  let r := nutLoop t
  ((r.2.1 * 1e-6 - 0.042888 - 0.29856 * t) * DAS2R,
   (r.2.2 * 1e-6 - 0.005171 - 0.02408 * t) * DAS2R,
   (84381.412 + (-46.80927 + (-0.000152 + (0.0019989 + (-0.00000051
     + (-0.000000025) * t) * t) * t) * t) * t) * DAS2R)

end Slalib

namespace Slalib

/-! ## Theorems settling the claims -/

/-- C5: slaDtf2d always returns `days = (3600·hour + 60·minute +
second)/86400`, and the status is determined with hour checked last
(overwriting minutes, overwriting seconds): hour invalid gives `1`
regardless of the other fields, minute invalid with hour valid gives
`2` regardless of seconds, second invalid alone gives `3`. -/
theorem dtf2d_days_and_status_priority (ihour imin : ℤ) (sec : ℚ) :
    (slaDtf2d ihour imin sec).1
      = (3600 * (ihour : ℚ) + 60 * (imin : ℚ) + sec) / 86400 ∧
    ((ihour < 0 ∨ 23 < ihour) → (slaDtf2d ihour imin sec).2 = 1) ∧
    (0 ≤ ihour → ihour ≤ 23 → (imin < 0 ∨ 59 < imin) →
      (slaDtf2d ihour imin sec).2 = 2) ∧
    (0 ≤ ihour → ihour ≤ 23 → 0 ≤ imin → imin ≤ 59 →
      (sec < 0 ∨ 60 ≤ sec) → (slaDtf2d ihour imin sec).2 = 3) ∧
    (0 ≤ ihour → ihour ≤ 23 → 0 ≤ imin → imin ≤ 59 →
      0 ≤ sec → sec < 60 → (slaDtf2d ihour imin sec).2 = 0) := by
  unfold slaDtf2d dtf2dStatusAfterHour dtf2dStatusAfterMin dtf2dStatusAfterSec
  refine ⟨by ring_nf, ?_, ?_, ?_, ?_⟩
  · intro h
    simp only [if_pos h]
  · intro h1 h2 h3
    rw [if_neg (by omega), if_pos h3]
  · intro h1 h2 h3 h4 h5
    rw [if_neg (by omega), if_neg (by omega),
        if_pos (by rcases h5 with h | h; exact Or.inl h; exact Or.inr h)]
  · intro h1 h2 h3 h4 h5 h6
    rw [if_neg (by omega), if_neg (by omega), if_neg (by push_neg; exact ⟨h5, h6⟩)]

/-- Witness for C5: `slaDtf2d 25 30 30` has an invalid hour and reports
status `1` (HoursOutOfRange). -/
theorem dtf2d_days_and_status_priority_witness :
    ((25 : ℤ) < 0 ∨ (23 : ℤ) < 25) ∧ (slaDtf2d 25 30 30).2 = 1 :=
  ⟨Or.inr (by norm_num),
   (dtf2d_days_and_status_priority 25 30 30).2.1 (Or.inr (by norm_num))⟩

/-- C9: slaCs2c returns exactly
`(cos a · cos b, sin a · cos b, sin b)`, whose Euclidean norm is `1` in
exact arithmetic. -/
theorem cs2c_formula_and_unit_norm (a b : ℝ) :
    slaCs2c a b
      = (Real.cos a * Real.cos b, Real.sin a * Real.cos b, Real.sin b) ∧
    Real.sqrt ((slaCs2c a b).1 ^ 2 + (slaCs2c a b).2.1 ^ 2
      + (slaCs2c a b).2.2 ^ 2) = 1 := by
  refine ⟨rfl, ?_⟩
  have h : (slaCs2c a b).1 ^ 2 + (slaCs2c a b).2.1 ^ 2
      + (slaCs2c a b).2.2 ^ 2 = 1 := by
    simp only [slaCs2c]
    linear_combination (Real.cos b) ^ 2 * Real.sin_sq_add_cos_sq a
      + Real.sin_sq_add_cos_sq b
  rw [h, Real.sqrt_one]

/-- C7: a body number outside `[1, 9]` makes slaPlanet return the zero
state vector with status `-1` (InvalidBody), whatever the collaborator
and the epoch. -/
theorem planet_invalid_body (planel : PlanelFn) (date : ℝ) (np : ℤ)
    (h : np < 1 ∨ np > 9) : slaPlanet planel date np = (zeroPv, -1) := by
  unfold slaPlanet
  rw [if_pos h]

/-- Witness for C7: body number `0` is rejected with the zero vector and
status `-1`. -/
theorem planet_invalid_body_witness :
    ((0 : ℤ) < 1 ∨ (0 : ℤ) > 9) ∧ slaPlanet planel0 0 0 = (zeroPv, -1) :=
  ⟨Or.inl (by norm_num), planet_invalid_body planel0 0 0 (Or.inl (by norm_num))⟩

/-- C1 (documents the code bug): for Pluto at the remote epoch
MJD 124594.5 (`t = 2` Julian centuries from J2000, outside
`[-1.15, 1.0]`) the code sets the status to `-1` — the same value it
uses for an invalid body number — and not to the `+1` date warning its
own documentation block specifies. -/
theorem pluto_remote_date_status_is_minus_one (planel : PlanelFn) :
    plutoT 124594.5 = 2 ∧ (slaPlanet planel 124594.5 9).2 = -1 ∧
    (-1 : ℤ) ≠ 1 := by
  have ht : plutoT (124594.5 : ℝ) = 2 := by
    unfold plutoT; norm_num
  refine ⟨ht, ?_, by norm_num⟩
  unfold slaPlanet
  rw [if_neg (by norm_num), if_neg (by norm_num)]
  rw [ht]
  unfold plutoJstat
  norm_num

end Slalib

namespace Slalib

/-- C6: for bodies 1-8 slaPlanet always delegates to the collaborator
(the state vector is whatever the collaborator computes), and the final
status is `-2` when the collaborator reports non-convergence
(overriding the date warning), else `1` when `|t| > 1` Julian
millennium, else `0`. -/
theorem planet_body18_status (planel : PlanelFn) (date : ℝ) (np : ℤ)
    (h1 : 1 ≤ np) (h8 : np ≤ 8) :
    slaPlanet planel date np =
      ((planel date 1 date (diFinal (np - 1).toNat (planetT date))
          (domFinal (np - 1).toNat (planetT date))
          (dpeFinal (np - 1).toNat (planetT date))
          (daFinal (np - 1).toNat (planetT date))
          (deFinal (np - 1).toNat (planetT date))
          (dlFinal (np - 1).toNat (planetT date))
          (dmFinal (np - 1).toNat (planetT date))).1,
       if (planel date 1 date (diFinal (np - 1).toNat (planetT date))
          (domFinal (np - 1).toNat (planetT date))
          (dpeFinal (np - 1).toNat (planetT date))
          (daFinal (np - 1).toNat (planetT date))
          (deFinal (np - 1).toNat (planetT date))
          (dlFinal (np - 1).toNat (planetT date))
          (dmFinal (np - 1).toNat (planetT date))).2 < 0 then -2
       else if |planetT date| ≤ 1.0 then 0 else 1) := by
  unfold slaPlanet
  rw [if_neg (by omega), if_pos (show np ≠ 9 by omega)]
  unfold planetJstat18
  rfl

/-- Witness for C6: body 1 at epoch MJD 0 with a collaborator that
always converges to the zero state gives status 0 and the zero
vector. -/
theorem planet_body18_status_witness :
    (1 : ℤ) ≤ 1 ∧ (1 : ℤ) ≤ 8 ∧ slaPlanet planel0 0 1 = (zeroPv, 0) := by
  refine ⟨le_refl 1, by norm_num, ?_⟩
  have h := planet_body18_status planel0 0 1 (le_refl 1) (by norm_num)
  rw [h]
  simp only [planel0]
  have ht : |planetT (0 : ℝ)| ≤ 1.0 := by
    unfold planetT
    rw [abs_le]
    norm_num
  rw [if_neg (by norm_num), if_pos ht]

/-- Nonnegativity and the strict upper bound of the floor-based
modulo. -/
theorem dmod_mem_Ico (a b : ℝ) (hb : 0 < b) : 0 ≤ dmod a b ∧ dmod a b < b := by
  unfold dmod
  have h1 : ((⌊a / b⌋ : ℝ)) ≤ a / b := Int.floor_le _
  have h2 : a / b < (⌊a / b⌋ : ℝ) + 1 := Int.lt_floor_add_one _
  have h3 : (⌊a / b⌋ : ℝ) * b ≤ a := (le_div_iff hb).mp h1
  have h4 : a < ((⌊a / b⌋ : ℝ) + 1) * b := (div_lt_iff hb).mp h2
  constructor <;> nlinarith

/-- C4: for every body row and epoch, the reduced mean longitude
`dlFinal` and ascending-node longitude `domFinal` — the values slaPlanet
passes to the elements-to-state collaborator — lie in `[0, 2π)`. -/
theorem planet_reduced_angles_in_turn (ip : ℕ) (t : ℝ) :
    (0 ≤ dlFinal ip t ∧ dlFinal ip t < 2 * Real.pi) ∧
    (0 ≤ domFinal ip t ∧ domFinal ip t < 2 * Real.pi) := by
  have hb : (0 : ℝ) < D2PI := by
    unfold D2PI
    positivity
  have h2 : D2PI = 2 * Real.pi := rfl
  constructor
  · have := dmod_mem_Ico (dlUnreduced ip t) D2PI hb
    rw [h2] at this
    exact this
  · unfold domFinal
    have := dmod_mem_Ico ((3600.0 * tget omegaTbl ip 0
      + (tget omegaTbl ip 1 + tget omegaTbl ip 2 * t) * t) * DAS2R) D2PI hb
    rw [h2] at this
    exact this

end Slalib

namespace Slalib

/-- Branch behaviour of the s2tp classification, for an arbitrary
denominator value: status and clamped denominator in each of the four
ranges.  Note the `denom = 0` point falls in the `j = 1` branch. -/
theorem s2tp_classify_cases (d : ℝ) :
    (s2tpTiny < d → s2tpStatus d = 0 ∧ s2tpUsedDenom d = d) ∧
    (0 ≤ d → d ≤ s2tpTiny → s2tpStatus d = 1 ∧ s2tpUsedDenom d = s2tpTiny) ∧
    (-s2tpTiny < d → d < 0 → s2tpStatus d = 2 ∧ s2tpUsedDenom d = -s2tpTiny) ∧
    (d ≤ -s2tpTiny → s2tpStatus d = 3 ∧ s2tpUsedDenom d = d) := by
  unfold s2tpStatus s2tpUsedDenom s2tpTiny
  refine ⟨fun h => ?_, fun h0 h => ?_, fun hm h0 => ?_, fun h => ?_⟩
  · rw [if_pos h, if_pos h]
    exact ⟨rfl, rfl⟩
  · rw [if_neg (by linarith), if_pos h0, if_neg (by linarith), if_pos h0]
    exact ⟨rfl, rfl⟩
  · rw [if_neg (by norm_num; linarith), if_neg (by linarith), if_pos (by linarith),
        if_neg (by norm_num; linarith), if_neg (by linarith), if_pos (by linarith)]
    exact ⟨rfl, rfl⟩
  · rw [if_neg (by norm_num; linarith), if_neg (by norm_num; linarith),
        if_neg (by linarith), if_neg (by norm_num; linarith),
        if_neg (by norm_num; linarith), if_neg (by linarith)]
    exact ⟨rfl, rfl⟩

/-- C2 counterexample: at `ra = π/2, dec = raz = decz = 0` the
denominator is exactly `0`, yet the status is `1` (star too close to
the axis, clamped to `+TINY`), not `2` (antistar on plane) as the claim
asserts for a zero denominator. -/
theorem s2tp_zero_denom_counterexample :
    s2tpDenom (Real.pi / 2) 0 0 0 = 0 ∧
    (slaS2tp (Real.pi / 2) 0 0 0).2.2 = 1 ∧
    (slaS2tp (Real.pi / 2) 0 0 0).2.2 ≠ 2 := by
  have hd : s2tpDenom (Real.pi / 2) 0 0 0 = 0 := by
    unfold s2tpDenom
    simp [Real.cos_pi_div_two]
  have hs : (slaS2tp (Real.pi / 2) 0 0 0).2.2 = 1 := by
    show s2tpStatus (s2tpDenom (Real.pi / 2) 0 0 0) = 1
    rw [hd]
    unfold s2tpStatus s2tpTiny
    rw [if_neg (by norm_num), if_pos le_rfl]
  exact ⟨hd, hs, by rw [hs]; norm_num⟩

/-- C2 (amended): slaS2tp classifies the denominator four ways —
status `0` when `denom > ε`, status `1` with clamp to `ε` when
`0 ≤ denom ≤ ε` (including `denom = 0` exactly), status `2` with clamp
to `-ε` when `-ε < denom < 0`, status `3` when `denom ≤ -ε` — and in
every branch `xi`, `eta` are the projection formulas divided by the
clamped denominator. -/
theorem s2tp_classification (ra dec raz decz : ℝ) :
    (s2tpTiny < s2tpDenom ra dec raz decz →
      (slaS2tp ra dec raz decz).2.2 = 0 ∧
      s2tpUsedDenom (s2tpDenom ra dec raz decz) = s2tpDenom ra dec raz decz) ∧
    (0 ≤ s2tpDenom ra dec raz decz → s2tpDenom ra dec raz decz ≤ s2tpTiny →
      (slaS2tp ra dec raz decz).2.2 = 1 ∧
      s2tpUsedDenom (s2tpDenom ra dec raz decz) = s2tpTiny) ∧
    (-s2tpTiny < s2tpDenom ra dec raz decz → s2tpDenom ra dec raz decz < 0 →
      (slaS2tp ra dec raz decz).2.2 = 2 ∧
      s2tpUsedDenom (s2tpDenom ra dec raz decz) = -s2tpTiny) ∧
    (s2tpDenom ra dec raz decz ≤ -s2tpTiny →
      (slaS2tp ra dec raz decz).2.2 = 3 ∧
      s2tpUsedDenom (s2tpDenom ra dec raz decz) = s2tpDenom ra dec raz decz) ∧
    (slaS2tp ra dec raz decz).1 = Real.cos dec * Real.sin (ra - raz)
      / s2tpUsedDenom (s2tpDenom ra dec raz decz) ∧
    (slaS2tp ra dec raz decz).2.1 = (Real.sin dec * Real.cos decz
      - Real.cos dec * Real.sin decz * Real.cos (ra - raz))
      / s2tpUsedDenom (s2tpDenom ra dec raz decz) := by
  have h := s2tp_classify_cases (s2tpDenom ra dec raz decz)
  exact ⟨h.1, h.2.1, h.2.2.1, h.2.2.2, rfl, rfl⟩

/-- Witness for C2: at `ra = dec = raz = decz = 0` the denominator is
`1 > ε` and the status is OK. -/
theorem s2tp_classification_witness :
    s2tpTiny < s2tpDenom 0 0 0 0 ∧ (slaS2tp 0 0 0 0).2.2 = 0 := by
  have hd : s2tpDenom 0 0 0 0 = 1 := by
    unfold s2tpDenom
    simp
  have hlt : s2tpTiny < s2tpDenom 0 0 0 0 := by
    rw [hd]
    unfold s2tpTiny
    norm_num
  exact ⟨hlt, ((s2tp_classification 0 0 0 0).1 hlt).1⟩

/-- C10: in every branch the denominator slaS2tp actually divides by
has absolute value at least `ε = 1e-6`, hence is nonzero: the division
is always well defined. -/
theorem s2tp_used_denom_bounded_away_from_zero (ra dec raz decz : ℝ) :
    s2tpTiny ≤ |s2tpUsedDenom (s2tpDenom ra dec raz decz)| ∧
    s2tpUsedDenom (s2tpDenom ra dec raz decz) ≠ 0 := by
  have habs : s2tpTiny ≤ |s2tpUsedDenom (s2tpDenom ra dec raz decz)| := by
    generalize s2tpDenom ra dec raz decz = d
    unfold s2tpUsedDenom s2tpTiny
    split_ifs with h1 h2 h3
    · rw [abs_of_pos (by norm_num; linarith)]
      norm_num at h1 ⊢
      linarith
    · rw [abs_of_pos (by norm_num)]
    · rw [abs_of_neg (by norm_num), neg_neg]
    · rw [abs_of_neg (by norm_num; linarith)]
      norm_num at h3 ⊢
      linarith
  refine ⟨habs, fun h0 => ?_⟩
  rw [h0, abs_zero] at habs
  unfold s2tpTiny at habs
  norm_num at habs

end Slalib

namespace Slalib

open Matrix

/-- Orthogonality of the Rodrigues matrix: with a unit axis and
`s² + c² = 1`, the matrix built by av2m.cpp times its transpose is the
identity, in exact arithmetic. -/
theorem rodriguesMat_mul_transpose (u v z s c : ℝ)
    (h1 : u ^ 2 + v ^ 2 + z ^ 2 = 1) (h2 : s ^ 2 + c ^ 2 = 1) :
    rodriguesMat u v z s c (1 - c) * (rodriguesMat u v z s c (1 - c))ᵀ = 1 := by
  ext i j
  fin_cases i <;> fin_cases j <;>
    simp only [Matrix.mul_apply, Matrix.transpose_apply, Fin.sum_univ_three] <;>
    simp [rodriguesMat, Matrix.one_apply]
  · linear_combination (u ^ 2 * (1 - c) ^ 2 + s ^ 2) * h1 + (1 - u ^ 2) * h2
  · linear_combination (u * v * (1 - c) ^ 2) * h1 - u * v * h2
  · linear_combination (u * z * (1 - c) ^ 2) * h1 - u * z * h2
  · linear_combination (u * v * (1 - c) ^ 2) * h1 - u * v * h2
  · linear_combination (v ^ 2 * (1 - c) ^ 2 + s ^ 2) * h1 + (1 - v ^ 2) * h2
  · linear_combination (v * z * (1 - c) ^ 2) * h1 - v * z * h2
  · linear_combination (u * z * (1 - c) ^ 2) * h1 - u * z * h2
  · linear_combination (v * z * (1 - c) ^ 2) * h1 - v * z * h2
  · linear_combination (z ^ 2 * (1 - c) ^ 2 + s ^ 2) * h1 + (1 - z ^ 2) * h2

/-- C8: slaAv2m on the zero axial vector is exactly the identity matrix
(no division happens), and on every nonzero axial vector the returned
matrix times its transpose is the identity in exact arithmetic. -/
theorem av2m_identity_and_orthogonal :
    slaAv2m (0, 0, 0) = 1 ∧
    ∀ v : ℝ × ℝ × ℝ, v ≠ 0 → slaAv2m v * (slaAv2m v)ᵀ = 1 := by
  constructor
  · have key : rodriguesMat 0 0 0 0 1 0 = (1 : Matrix (Fin 3) (Fin 3) ℝ) := by
      ext i j
      fin_cases i <;> fin_cases j <;>
        simp [rodriguesMat, Matrix.one_apply, Matrix.vecHead, Matrix.vecTail]
    simp only [slaAv2m]
    norm_num
    exact key
  · intro v hv
    have n1 := mul_self_nonneg v.1
    have n2 := mul_self_nonneg v.2.1
    have n3 := mul_self_nonneg v.2.2
    have hS : 0 < v.1 * v.1 + v.2.1 * v.2.1 + v.2.2 * v.2.2 := by
      by_contra hc
      push_neg at hc
      have e1 : v.1 = 0 := mul_self_eq_zero.mp (le_antisymm (by linarith) n1)
      have e2 : v.2.1 = 0 := mul_self_eq_zero.mp (le_antisymm (by linarith) n2)
      have e3 : v.2.2 = 0 := mul_self_eq_zero.mp (le_antisymm (by linarith) n3)
      exact hv (by rw [show v = (v.1, v.2.1, v.2.2) from rfl, e1, e2, e3]; rfl)
    set S := v.1 * v.1 + v.2.1 * v.2.1 + v.2.2 * v.2.2 with hSdef
    have hphi : Real.sqrt S ≠ 0 := ne_of_gt (Real.sqrt_pos.mpr hS)
    have hunit : (v.1 / Real.sqrt S) ^ 2 + (v.2.1 / Real.sqrt S) ^ 2
        + (v.2.2 / Real.sqrt S) ^ 2 = 1 := by
      have hsq : Real.sqrt S ^ 2 = S := Real.sq_sqrt hS.le
      field_simp
      rw [hSdef]
      ring
    have htrig : Real.sin (Real.sqrt S) ^ 2 + Real.cos (Real.sqrt S) ^ 2 = 1 :=
      Real.sin_sq_add_cos_sq _
    simp only [slaAv2m]
    rw [← hSdef]
    rw [if_pos hphi, if_pos hphi, if_pos hphi]
    exact rodriguesMat_mul_transpose _ _ _ _ _ hunit htrig

/-- Witness for C8: the axial vector `(1, 0, 0)` is nonzero and its
rotation matrix is orthonormal. -/
theorem av2m_identity_and_orthogonal_witness :
    ((1 : ℝ), (0 : ℝ), (0 : ℝ)) ≠ (0 : ℝ × ℝ × ℝ) ∧
    slaAv2m (1, 0, 0) * (slaAv2m (1, 0, 0))ᵀ = 1 := by
  have hne : ((1 : ℝ), (0 : ℝ), (0 : ℝ)) ≠ (0 : ℝ × ℝ × ℝ) := by
    intro h
    have := congrArg Prod.fst h
    norm_num at this
  exact ⟨hne, av2m_identity_and_orthogonal.2 (1, 0, 0) hne⟩

end Slalib

namespace Slalib

set_option maxRecDepth 10000 in
/-- C3 counterexample: the fundamental-angle multiplier table of
nutc.cpp does not have 263 rows. -/
theorem nutation_table_not_263 : naTbl.length ≠ 263 := by decide

/-- The iteration counter of the series loop advances once per term,
whatever the epoch and the accumulator values. -/
theorem nutLoop_counter (t : ℝ) (l : List (List ℤ × List ℝ × List ℝ)) :
    ∀ (n : ℕ) (p : ℝ × ℝ), (l.foldl (nutStep t) (n, p)).1 = n + l.length := by
  induction l with
  | nil => intro n p; simp
  | cons hd tl ih =>
      intro n p
      simp only [List.foldl_cons, List.length_cons]
      rw [show nutStep t (n, p) hd = (n + 1, nutStepVals t p hd) from rfl, ih]
      omega

set_option maxRecDepth 20000 in
/-- C3 (amended): the nutation series table has exactly 194 terms, each
with a 9-integer multiplier row, four longitude coefficients and four
obliquity coefficients, and the accumulation loop of slaNutc iterates
exactly 194 times for every epoch. -/
theorem nutation_series_shape (t : ℝ) :
    naTbl.length = 194 ∧ (naTbl.all fun r => r.length == 9) = true ∧
    psiTbl.length = 194 ∧ (psiTbl.all fun r => r.length == 4) = true ∧
    epsTbl.length = 194 ∧ (epsTbl.all fun r => r.length == 4) = true ∧
    (nutLoop t).1 = 194 := by
  refine ⟨by decide, by decide, by decide, by decide, by decide, by decide, ?_⟩
  unfold nutLoop
  rw [nutLoop_counter t (nutTermList.reverse) 0 (nutSeed t, 0)]
  rw [List.length_reverse]
  decide

end Slalib
